import Mathlib

/-!
Shallow embedding of the boids simulation (src/main.rs, src/globals.rs,
src/resources/grid.rs) over exact real arithmetic.  The 2D float-vector
substrate (glam Vec2) is modelled as pairs of real numbers; `f32`
operations become their exact real counterparts.  The per-agent systems
`boid_movement_system` and `border_repulsion_system` are embedded as pure
state transformers over a list of agent states, with the start-of-tick
snapshot (`boid_data` in the source) passed explicitly.
-/

open Real

/-- A 2D vector, modelling glam `Vec2` over exact reals. -/
abbrev Vec2 : Type := ℝ × ℝ

noncomputable instance : DecidableEq Vec2 := Classical.decEq _

/-- Squared Euclidean length, modelling `Vec2::length_squared`. -/
noncomputable def vlengthSq (v : Vec2) : ℝ := v.1 * v.1 + v.2 * v.2

/-- Euclidean length, modelling `Vec2::length`. -/
noncomputable def vlength (v : Vec2) : ℝ := Real.sqrt (vlengthSq v)

/-- Dot product, modelling `Vec2::dot`. -/
noncomputable def vdot (v w : Vec2) : ℝ := v.1 * w.1 + v.2 * w.2

/-- Model of `Vec2::normalize`: `v / |v|`.  The source only calls it on vectors of
nonzero length; at zero the real-division-by-zero convention yields `0`. -/
noncomputable def vnormalize (v : Vec2) : Vec2 := (1 / vlength v) • v

/-- Model of `Vec2::normalize_or_zero`: the zero vector when `v = 0`, else `v / |v|`. -/
noncomputable def vnormalizeOrZero (v : Vec2) : Vec2 :=
  if v = 0 then 0 else vnormalize v

/-- Euclidean distance, modelling `Vec2::distance`. -/
noncomputable def vdist (a b : Vec2) : ℝ := vlength (a - b)

/-- Model of glam `Vec2::clamp_length_max`: rescale to length `maxLen` when the
squared length exceeds `maxLen * maxLen`, else return `v` unchanged. -/
noncomputable def clampLengthMax (v : Vec2) (maxLen : ℝ) : Vec2 :=
  if maxLen * maxLen < vlengthSq v then (maxLen / Real.sqrt (vlengthSq v)) • v else v

/-- Standard-library `atan2` (`f32::atan2` of the vector-math substrate),
modelled piecewise from `arctan` with the usual quadrant corrections. -/
noncomputable def atan2 (y x : ℝ) : ℝ :=
  if 0 < x then Real.arctan (y / x)
  else if x < 0 then
    (if 0 ≤ y then Real.arctan (y / x) + Real.pi else Real.arctan (y / x) - Real.pi)
  else
    (if 0 < y then Real.pi / 2 else if y < 0 then -(Real.pi / 2) else 0)

/-! Constants from src/globals.rs and the locals of border_repulsion_system. -/

def GRID_HEIGHT : ℝ := 700
def GRID_WIDTH : ℝ := 700
def BOID_MASS : ℝ := 1
def BOID_MAX_SPEED : ℝ := 100
def BOID_MAX_FORCE : ℝ := 1000

/-- Local constant of `border_repulsion_system`. -/
def border_distance : ℝ := 50

/-- Local constant of `border_repulsion_system`. -/
def repulsion_strength : ℝ := 200

/-- Per-agent state: Bevy components `Transform` (xy translation and
z-rotation angle) and `Velocity`, plus the `Boid` component fields; `id`
models the `Entity` identifier used for the self-skip test. -/
structure BoidState where
  id : ℕ
  pos : Vec2
  vel : Vec2
  rot : ℝ
  mass : ℝ
  max_speed : ℝ
  max_force : ℝ

/-- One entry of the `boid_data` start-of-tick snapshot:
`(entity, transform.translation.xy(), velocity.0)`. -/
structure SnapEntry where
  id : ℕ
  pos : Vec2
  vel : Vec2

/-- Resource `BoidSettings` from src/main.rs. -/
structure BoidSettings where
  separation_radius : ℝ
  alignment_radius : ℝ
  cohesion_radius : ℝ
  separation_weight : ℝ
  alignment_weight : ℝ
  cohesion_weight : ℝ
  view_angle : ℝ
  mouse_attraction_weight : ℝ
  mouse_arrival_radius : ℝ

/-- The `Default for BoidSettings` impl from src/main.rs. -/
def defaultBoidSettings : BoidSettings :=
  { separation_radius := 20
    alignment_radius := 80
    cohesion_radius := 120
    separation_weight := 2.5
    alignment_weight := 1.8
    cohesion_weight := 1
    view_angle := 4.7
    mouse_attraction_weight := 0.1
    mouse_arrival_radius := 30 }

/-- Resource `GridSettings` from src/resources/grid.rs. -/
structure GridSettings where
  width : ℝ
  height : ℝ

/-- Per-tick inputs read by `boid_movement_system`: the `BoidSettings`
resource, the `MouseWorldPosition` resource and `time.delta_secs()`. -/
structure TickCtx where
  settings : BoidSettings
  mouse : Option Vec2
  dt : ℝ

/-- Model of `is_in_view` from src/main.rs: the other agent is visible when the
angle `acos(dot(boid_dir, normalize_or_zero(other_pos - boid_pos)))` is at
most half the view angle.  Note: the source applies `acos` to the raw dot
product, with no clamping into `[-1, 1]`. -/
noncomputable def is_in_view (boid_pos boid_dir other_pos : Vec2) (view_angle : ℝ) : Prop :=
  Real.arccos (vdot boid_dir (vnormalizeOrZero (other_pos - boid_pos))) ≤ view_angle / 2

noncomputable instance (boid_pos boid_dir other_pos : Vec2) (view_angle : ℝ) :
    Decidable (is_in_view boid_pos boid_dir other_pos view_angle) :=
  Real.decidableLE _ _

/-- The `Neighbors` struct from src/main.rs: three buckets of
`(position, velocity)` pairs. -/
structure Neighbors where
  separation : List (Vec2 × Vec2)
  alignment : List (Vec2 × Vec2)
  cohesion : List (Vec2 × Vec2)

/-- The neighbor-classification loop of `boid_movement_system`
(src/main.rs lines 148-173): for each snapshot entry, skip self by entity
id, skip entries outside the view cone, and push `(pos, vel)` into each
bucket whose radius test passes. -/
noncomputable def buildNeighbors (s : BoidSettings) (myId : ℕ) (pos dir : Vec2) :
    List SnapEntry → Neighbors
  | [] => ⟨[], [], []⟩
  | e :: rest =>
    let n := buildNeighbors s myId pos dir rest
    if e.id = myId then n
    else
      let distance := vdist pos e.pos
      if is_in_view pos dir e.pos s.view_angle then
        { separation :=
            if distance < s.separation_radius then (e.pos, e.vel) :: n.separation
            else n.separation
          alignment :=
            if distance < s.alignment_radius then (e.pos, e.vel) :: n.alignment
            else n.alignment
          cohesion :=
            if distance < s.cohesion_radius then (e.pos, e.vel) :: n.cohesion
            else n.cohesion }
      else n

/-- Model of `calculate_separation` from src/main.rs: fold over the neighbors,
accumulating `normalize(diff) / distance` for each neighbor at positive
distance, then `normalize_or_zero` the sum. -/
noncomputable def calculate_separation (boid_pos : Vec2) (neighbors : List (Vec2 × Vec2)) : Vec2 :=
  if neighbors.isEmpty then 0
  else
    vnormalizeOrZero
      (neighbors.foldl
        (fun acc nb =>
          if 0 < vlength (boid_pos - nb.1) then
            acc + (1 / vlength (boid_pos - nb.1)) • vnormalize (boid_pos - nb.1)
          else acc)
        0)

/-- Model of `calculate_alignment` from src/main.rs: average neighbor velocity minus
the agent's velocity, `normalize_or_zero`d; zero for an empty list. -/
noncomputable def calculate_alignment (boid_velocity : Vec2) (neighbors : List (Vec2 × Vec2)) : Vec2 :=
  if neighbors.isEmpty then 0
  else
    vnormalizeOrZero
      ((1 / (neighbors.length : ℝ)) • (neighbors.map Prod.snd).sum - boid_velocity)

/-- Model of `calculate_cohesion` from src/main.rs: centroid of neighbor positions
minus the agent's position, `normalize_or_zero`d; zero for an empty list. -/
noncomputable def calculate_cohesion (boid_pos : Vec2) (neighbors : List (Vec2 × Vec2)) : Vec2 :=
  if neighbors.isEmpty then 0
  else
    vnormalizeOrZero
      ((1 / (neighbors.length : ℝ)) • (neighbors.map Prod.fst).sum - boid_pos)

/-- Model of `calculate_seek_with_arrival` from src/main.rs. -/
noncomputable def calculate_seek_with_arrival (current_pos current_vel target_pos : Vec2)
    (max_speed max_force arrival_radius : ℝ) : Vec2 :=
  let to_target := target_pos - current_pos
  let distance := vlength to_target
  if distance < 0.001 then 0
  else
    let desired_speed :=
      if distance < arrival_radius then
        max_speed * Real.sqrt (distance / arrival_radius)
      else max_speed
    let desired_velocity := desired_speed • vnormalize to_target
    let steering := desired_velocity - current_vel
    let force_multiplier : ℝ := if arrival_radius < distance then 2 else 1
    clampLengthMax steering (max_force * force_multiplier)

/-- The `mouse_seeking` term of `boid_movement_system` (src/main.rs lines
181-192): the weighted seek-with-arrival force when a mouse world position
is present, the zero vector otherwise. -/
noncomputable def mouseSeekForce (ctx : TickCtx) (b : BoidState) : Vec2 :=
  match ctx.mouse with
  | some mouse_world_pos =>
      ctx.settings.mouse_attraction_weight •
        calculate_seek_with_arrival b.pos b.vel mouse_world_pos b.max_speed b.max_force
          ctx.settings.mouse_arrival_radius
  | none => 0

/-- The combined `steering_force` of `boid_movement_system` (src/main.rs
lines 175-195): weighted separation, alignment and cohesion over the
snapshot neighbors, plus the mouse-seeking term. -/
noncomputable def steeringForce (ctx : TickCtx) (snap : List SnapEntry) (b : BoidState) : Vec2 :=
  let nbs := buildNeighbors ctx.settings b.id b.pos (vnormalizeOrZero b.vel) snap
  ctx.settings.separation_weight • calculate_separation b.pos nbs.separation +
    ctx.settings.alignment_weight • calculate_alignment b.vel nbs.alignment +
    ctx.settings.cohesion_weight • calculate_cohesion b.pos nbs.cohesion +
    mouseSeekForce ctx b

/-- The velocity produced by the integration part of
`boid_movement_system` (src/main.rs lines 198-203): steering clamped to
`max_force`, divided by mass, scaled by the elapsed time, added to the
velocity, and the result clamped to `max_speed`. -/
noncomputable def newVelocity (ctx : TickCtx) (snap : List SnapEntry) (b : BoidState) : Vec2 :=
  clampLengthMax
    (b.vel + ctx.dt • ((1 / b.mass) • clampLengthMax (steeringForce ctx snap b) b.max_force))
    b.max_speed

/-- The per-agent body of `boid_movement_system` (src/main.rs lines
142-212): classify neighbors against the start-of-tick snapshot, combine
the weighted steering forces with optional mouse seeking, clamp to
`max_force`, integrate velocity (clamped to `max_speed`) and position, and
recompute the facing angle when the updated velocity is nonzero. -/
noncomputable def stepBoid (ctx : TickCtx) (snap : List SnapEntry) (b : BoidState) : BoidState :=
  let vel2 := newVelocity ctx snap b
  { b with
    pos := b.pos + ctx.dt • vel2
    vel := vel2
    rot := if 0 < vlength vel2 then atan2 vel2.2 vel2.1 - Real.pi / 2 else b.rot }

/-- The `boid_data` snapshot collected at the top of
`boid_movement_system` (src/main.rs lines 137-140). -/
def snapshotOf (boids : List BoidState) : List SnapEntry :=
  boids.map fun b => ⟨b.id, b.pos, b.vel⟩

/-- Model of `boid_movement_system` as the source executes it: a sequential
in-place loop over the component table.  Slot `i` is read from the current
(partially written) table, updated with `stepBoid` reading neighbors only
from the fixed snapshot, and written back before the loop moves to slot
`i + 1`. -/
noncomputable def seqUpdateFrom (ctx : TickCtx) (snap : List SnapEntry) (i : ℕ)
    (cur : List BoidState) : List BoidState :=
  if h : i < cur.length then
    seqUpdateFrom ctx snap (i + 1) (cur.set i (stepBoid ctx snap cur[i]))
  else cur
termination_by cur.length - i
decreasing_by simp [List.length_set]; omega

/-- Model of `boid_movement_system`: snapshot `boid_data` first, then the in-place
mutation loop. -/
noncomputable def boid_movement_system (ctx : TickCtx) (boids : List BoidState) : List BoidState :=
  seqUpdateFrom ctx (snapshotOf boids) 0 boids

/-- Reference two-phase update: phase one computes every agent's new state
from the immutable snapshot into a fresh output list; phase two writes the
outputs back (here: the output list replaces the table wholesale). -/
noncomputable def twoPhaseUpdate (ctx : TickCtx) (boids : List BoidState) : List BoidState :=
  let snap := snapshotOf boids
  let outputs := boids.map fun b => stepBoid ctx snap b
  outputs

/-- The per-agent body of `border_repulsion_system` (src/main.rs lines
223-262): accumulate one inward force component per nearby edge, then add
`force * delta_secs` to the velocity.  Position is never written. -/
noncomputable def border_repulsion_step (gs : GridSettings) (dt : ℝ) (b : BoidState) : BoidState :=
  let pos := b.pos
  let half_width := gs.width / 2
  let half_height := gs.height / 2
  let f0 : Vec2 := 0
  let dist_right := half_width - pos.1
  let f1 :=
    if dist_right < border_distance then
      (f0.1 - (1 - dist_right / border_distance) * repulsion_strength, f0.2)
    else f0
  let dist_left := pos.1 + half_width
  let f2 :=
    if dist_left < border_distance then
      (f1.1 + (1 - dist_left / border_distance) * repulsion_strength, f1.2)
    else f1
  let dist_top := half_height - pos.2
  let f3 :=
    if dist_top < border_distance then
      (f2.1, f2.2 - (1 - dist_top / border_distance) * repulsion_strength)
    else f2
  let dist_bottom := pos.2 + half_height
  let f4 :=
    if dist_bottom < border_distance then
      (f3.1, f3.2 + (1 - dist_bottom / border_distance) * repulsion_strength)
    else f3
  { b with vel := b.vel + dt • f4 }

/-- Model of `border_repulsion_system`: the per-agent step applied to every boid. -/
noncomputable def border_repulsion_system (gs : GridSettings) (dt : ℝ)
    (boids : List BoidState) : List BoidState :=
  boids.map (border_repulsion_step gs dt)

/-- One full `Update`-schedule tick for the core systems: the schedule
chains `boid_movement_system` before `border_repulsion_system`
(src/main.rs lines 398-399). -/
noncomputable def simulationTick (ctx : TickCtx) (gs : GridSettings)
    (boids : List BoidState) : List BoidState :=
  border_repulsion_system gs ctx.dt (boid_movement_system ctx boids)

/-! Concrete states used by witnesses and counterexamples. -/

/-- A boid with the default `Boid` component (mass 1, max_speed 100,
max_force 1000) sitting 20 units from the right edge of the default
700-wide grid, moving straight up at full speed. -/
def boid0 : BoidState := ⟨0, (330, 0), (0, 100), 0, 1, 100, 1000⟩

/-- A boid at rest at the origin with an arbitrary prior rotation. -/
def boidZ : BoidState := ⟨0, 0, 0, 37, 1, 100, 1000⟩

/-- A second boid, for two-agent scenarios. -/
def boidY : BoidState := ⟨1, (10, 0), (0, 50), 0, 1, 100, 1000⟩

/-- Default grid: 700 by 700. -/
def gs0 : GridSettings := ⟨700, 700⟩

/-- Default settings, no mouse position, a one-second tick. -/
def ctx0 : TickCtx := ⟨defaultBoidSettings, none, 1⟩

/-- Snapshot entry of `boid0`. -/
def entA : SnapEntry := ⟨0, (330, 0), (0, 100)⟩

/-- Snapshot entry of `boidY`. -/
def entB : SnapEntry := ⟨1, (10, 0), (0, 50)⟩

/-! Basic facts about the vector substrate. -/

lemma vlengthSq_nonneg (v : Vec2) : 0 ≤ vlengthSq v :=
  add_nonneg (mul_self_nonneg _) (mul_self_nonneg _)

lemma vlength_nonneg (v : Vec2) : 0 ≤ vlength v := Real.sqrt_nonneg _

lemma vlengthSq_eq_zero_iff (v : Vec2) : vlengthSq v = 0 ↔ v = 0 := by
  unfold vlengthSq
  constructor
  · intro h
    have h1 : v.1 * v.1 = 0 ∧ v.2 * v.2 = 0 :=
      (add_eq_zero_iff_of_nonneg (mul_self_nonneg _) (mul_self_nonneg _)).mp h
    have hx : v.1 = 0 := mul_self_eq_zero.mp h1.1
    have hy : v.2 = 0 := mul_self_eq_zero.mp h1.2
    exact Prod.ext hx hy
  · intro h
    rw [h]
    norm_num

lemma vlengthSq_pos_iff (v : Vec2) : 0 < vlengthSq v ↔ v ≠ 0 := by
  rw [lt_iff_le_and_ne, and_iff_right (vlengthSq_nonneg v), ne_comm, not_iff_not.symm]
  push_neg
  exact vlengthSq_eq_zero_iff v

lemma vlength_pos_iff (v : Vec2) : 0 < vlength v ↔ v ≠ 0 := by
  rw [vlength, Real.sqrt_pos, vlengthSq_pos_iff]

lemma vlength_zero : vlength (0 : Vec2) = 0 := by
  unfold vlength vlengthSq
  norm_num

lemma vlengthSq_smul (c : ℝ) (v : Vec2) : vlengthSq (c • v) = c * c * vlengthSq v := by
  unfold vlengthSq
  simp only [Prod.smul_fst, Prod.smul_snd, smul_eq_mul]
  ring

lemma vlength_smul (c : ℝ) (v : Vec2) : vlength (c • v) = |c| * vlength v := by
  unfold vlength
  rw [vlengthSq_smul, Real.sqrt_mul (mul_self_nonneg c), Real.sqrt_mul_self_eq_abs]

lemma vlength_normalize (v : Vec2) (h : v ≠ 0) : vlength (vnormalize v) = 1 := by
  unfold vnormalize
  have hpos : 0 < vlength v := (vlength_pos_iff v).mpr h
  rw [vlength_smul, abs_of_nonneg (by positivity : (0 : ℝ) ≤ 1 / vlength v), one_div,
    inv_mul_cancel₀ hpos.ne']

lemma vlength_normalizeOrZero_le_one (v : Vec2) : vlength (vnormalizeOrZero v) ≤ 1 := by
  unfold vnormalizeOrZero
  by_cases h : v = 0
  · rw [if_pos h, vlength_zero]
    norm_num
  · rw [if_neg h, vlength_normalize v h]

lemma clampLengthMax_zero (m : ℝ) : clampLengthMax 0 m = 0 := by
  unfold clampLengthMax
  split
  · rw [smul_zero]
  · rfl

lemma vlength_clampLengthMax_le (v : Vec2) (m : ℝ) (hm : 0 ≤ m) :
    vlength (clampLengthMax v m) ≤ m := by
  unfold clampLengthMax
  by_cases h : m * m < vlengthSq v
  · rw [if_pos h, vlength_smul]
    have hpos : 0 < vlengthSq v := lt_of_le_of_lt (mul_self_nonneg m) h
    have hs : 0 < Real.sqrt (vlengthSq v) := Real.sqrt_pos.mpr hpos
    rw [abs_of_nonneg (div_nonneg hm hs.le)]
    rw [show vlength v = Real.sqrt (vlengthSq v) from rfl]
    rw [div_mul_cancel₀ m hs.ne']
  · rw [if_neg h]
    push_neg at h
    calc vlength v = Real.sqrt (vlengthSq v) := rfl
    _ ≤ Real.sqrt (m * m) := Real.sqrt_le_sqrt h
    _ = m := Real.sqrt_mul_self hm

lemma stepBoid_vel (ctx : TickCtx) (snap : List SnapEntry) (b : BoidState) :
    (stepBoid ctx snap b).vel = newVelocity ctx snap b := rfl

lemma stepBoid_pos (ctx : TickCtx) (snap : List SnapEntry) (b : BoidState) :
    (stepBoid ctx snap b).pos = b.pos + ctx.dt • newVelocity ctx snap b := rfl

lemma stepBoid_rot (ctx : TickCtx) (snap : List SnapEntry) (b : BoidState) :
    (stepBoid ctx snap b).rot =
      if 0 < vlength (newVelocity ctx snap b) then
        atan2 (newVelocity ctx snap b).2 (newVelocity ctx snap b).1 - Real.pi / 2
      else b.rot := rfl

/-- Claim C9: for every agent, a bucket whose neighbor list is empty
yields exactly the zero vector as that bucket's base steering force. -/
theorem C9_empty_bucket_zero_force (boid_pos boid_velocity : Vec2) :
    calculate_separation boid_pos [] = 0 ∧
    calculate_alignment boid_velocity [] = 0 ∧
    calculate_cohesion boid_pos [] = 0 :=
  ⟨rfl, rfl, rfl⟩

/-- Claim C7: the soft-repulsion boundary step modifies only the velocity;
position, rotation and every other component of the agent state are
returned unchanged. -/
theorem C7_border_step_touches_only_velocity (gs : GridSettings) (dt : ℝ) (b : BoidState) :
    (border_repulsion_step gs dt b).pos = b.pos ∧
    (border_repulsion_step gs dt b).rot = b.rot ∧
    (border_repulsion_step gs dt b).id = b.id ∧
    (border_repulsion_step gs dt b).mass = b.mass ∧
    (border_repulsion_step gs dt b).max_speed = b.max_speed ∧
    (border_repulsion_step gs dt b).max_force = b.max_force :=
  ⟨rfl, rfl, rfl, rfl, rfl, rfl⟩

/-- Reference goal-seeking-with-arrival force, written from the claim:
zero within 0.001 of the target; desired speed `max_speed` at or beyond
the arrival radius and square-root-ramped inside it; steering is desired
velocity minus current velocity, clamped to `max_force` times a
multiplier that is 2 strictly outside the arrival radius and 1 at or
inside it. -/
noncomputable def seekWithArrivalSpec (current_pos current_vel target_pos : Vec2)
    (max_speed max_force arrival_radius : ℝ) : Vec2 :=
  let to_target := target_pos - current_pos
  let distance := vlength to_target
  if distance < 0.001 then 0
  else
    let desired_speed :=
      if arrival_radius ≤ distance then max_speed
      else max_speed * Real.sqrt (distance / arrival_radius)
    let steering := desired_speed • vnormalize to_target - current_vel
    let multiplier : ℝ := if arrival_radius < distance then 2 else 1
    clampLengthMax steering (max_force * multiplier)

/-- Claim C4: `calculate_seek_with_arrival` agrees with the reference
definition on every input. -/
theorem C4_seek_with_arrival_matches_reference (current_pos current_vel target_pos : Vec2)
    (max_speed max_force arrival_radius : ℝ) :
    calculate_seek_with_arrival current_pos current_vel target_pos max_speed max_force
        arrival_radius =
      seekWithArrivalSpec current_pos current_vel target_pos max_speed max_force
        arrival_radius := by
  unfold calculate_seek_with_arrival seekWithArrivalSpec
  by_cases h0 : vlength (target_pos - current_pos) < 0.001
  · simp [h0]
  · by_cases h1 : vlength (target_pos - current_pos) < arrival_radius
    · simp [h0, h1, not_le.mpr h1]
    · simp [h0, h1, not_lt.mp h1]

/-- Claim C8: after the integration step, the facing angle is
`atan2(vel.y, vel.x)` minus a fixed 90-degree offset whenever the updated
velocity is nonzero, and is left unchanged when the updated velocity is
exactly zero, while the position update still applies. -/
theorem C8_heading_update (ctx : TickCtx) (snap : List SnapEntry) (b : BoidState) :
    ((stepBoid ctx snap b).vel ≠ 0 →
      (stepBoid ctx snap b).rot =
        atan2 (stepBoid ctx snap b).vel.2 (stepBoid ctx snap b).vel.1 - Real.pi / 2) ∧
    ((stepBoid ctx snap b).vel = 0 → (stepBoid ctx snap b).rot = b.rot) ∧
    (stepBoid ctx snap b).pos = b.pos + ctx.dt • (stepBoid ctx snap b).vel := by
  rw [stepBoid_rot, stepBoid_vel, stepBoid_pos]
  refine ⟨fun hne => ?_, fun h0 => ?_, rfl⟩
  · rw [if_pos ((vlength_pos_iff _).mpr hne)]
  · rw [if_neg]
    rw [h0, vlength_zero]
    exact lt_irrefl 0

lemma stepBoid_boidZ_vel : (stepBoid ctx0 [] boidZ).vel = 0 := by
  rw [stepBoid_vel]
  unfold newVelocity
  have hsf : steeringForce ctx0 [] boidZ = 0 := by
    unfold steeringForce mouseSeekForce
    simp [ctx0, boidZ, buildNeighbors, calculate_separation, calculate_alignment,
      calculate_cohesion]
  rw [hsf, clampLengthMax_zero]
  have : boidZ.vel + ctx0.dt • ((1 / boidZ.mass) • (0 : Vec2)) = 0 := by
    simp [boidZ]
  rw [this, clampLengthMax_zero]

/-- Witness for C8 at a concrete input: a resting boid with no neighbors
and no mouse target keeps its previous rotation. -/
theorem C8_heading_update_witness :
    (stepBoid ctx0 [] boidZ).vel = 0 ∧ (stepBoid ctx0 [] boidZ).rot = boidZ.rot :=
  ⟨stepBoid_boidZ_vel, (C8_heading_update ctx0 [] boidZ).2.1 stepBoid_boidZ_vel⟩

/-- Claim C6: the boundary step adds to the velocity, scaled by the
elapsed time, one inward force component per edge closer than
`border_distance`, of magnitude `(1 - dist_to_edge / border_distance) *
repulsion_strength`; the sum is applied directly to the velocity with no
`max_force` clamp. -/
theorem C6_border_repulsion_force (gs : GridSettings) (dt : ℝ) (b : BoidState) :
    (border_repulsion_step gs dt b).vel =
      b.vel + dt •
        ((if gs.width / 2 - b.pos.1 < border_distance then
            ((1 - (gs.width / 2 - b.pos.1) / border_distance) * repulsion_strength) •
              ((-1 : ℝ), (0 : ℝ))
          else 0) +
        (if b.pos.1 + gs.width / 2 < border_distance then
            ((1 - (b.pos.1 + gs.width / 2) / border_distance) * repulsion_strength) •
              ((1 : ℝ), (0 : ℝ))
          else 0) +
        (if gs.height / 2 - b.pos.2 < border_distance then
            ((1 - (gs.height / 2 - b.pos.2) / border_distance) * repulsion_strength) •
              ((0 : ℝ), (-1 : ℝ))
          else 0) +
        (if b.pos.2 + gs.height / 2 < border_distance then
            ((1 - (b.pos.2 + gs.height / 2) / border_distance) * repulsion_strength) •
              ((0 : ℝ), (1 : ℝ))
          else 0)) := by
  unfold border_repulsion_step
  by_cases h1 : gs.width / 2 - b.pos.1 < border_distance <;>
    by_cases h2 : b.pos.1 + gs.width / 2 < border_distance <;>
      by_cases h3 : gs.height / 2 - b.pos.2 < border_distance <;>
        by_cases h4 : b.pos.2 + gs.height / 2 < border_distance <;>
          · simp only [h1, h2, h3, h4, if_true, if_false, Prod.smul_mk, smul_eq_mul,
              Prod.mk_add_mk, Prod.ext_iff, Prod.fst_add, Prod.snd_add, Prod.fst_zero,
              Prod.snd_zero, Prod.smul_fst, Prod.smul_snd]
            constructor <;> ring

/-! Filter characterization of the neighbor-classification loop. -/

lemma buildNeighbors_sep_eq (s : BoidSettings) (myId : ℕ) (pos dir : Vec2)
    (snap : List SnapEntry) :
    (buildNeighbors s myId pos dir snap).separation =
      (snap.filter fun e =>
          decide (e.id ≠ myId ∧ is_in_view pos dir e.pos s.view_angle ∧
            vdist pos e.pos < s.separation_radius)).map
        fun e => (e.pos, e.vel) := by
  induction snap with
  | nil => rfl
  | cons e rest ih =>
    simp only [buildNeighbors]
    by_cases hid : e.id = myId
    · simp [hid, List.filter_cons, ih]
    · by_cases hview : is_in_view pos dir e.pos s.view_angle
      · by_cases hd : vdist pos e.pos < s.separation_radius
        · simp [hid, hview, hd, List.filter_cons, ih]
        · simp [hid, hview, hd, List.filter_cons, ih]
      · simp [hid, hview, List.filter_cons, ih]

lemma buildNeighbors_align_eq (s : BoidSettings) (myId : ℕ) (pos dir : Vec2)
    (snap : List SnapEntry) :
    (buildNeighbors s myId pos dir snap).alignment =
      (snap.filter fun e =>
          decide (e.id ≠ myId ∧ is_in_view pos dir e.pos s.view_angle ∧
            vdist pos e.pos < s.alignment_radius)).map
        fun e => (e.pos, e.vel) := by
  induction snap with
  | nil => rfl
  | cons e rest ih =>
    simp only [buildNeighbors]
    by_cases hid : e.id = myId
    · simp [hid, List.filter_cons, ih]
    · by_cases hview : is_in_view pos dir e.pos s.view_angle
      · by_cases hd : vdist pos e.pos < s.alignment_radius
        · simp [hid, hview, hd, List.filter_cons, ih]
        · simp [hid, hview, hd, List.filter_cons, ih]
      · simp [hid, hview, List.filter_cons, ih]

lemma buildNeighbors_coh_eq (s : BoidSettings) (myId : ℕ) (pos dir : Vec2)
    (snap : List SnapEntry) :
    (buildNeighbors s myId pos dir snap).cohesion =
      (snap.filter fun e =>
          decide (e.id ≠ myId ∧ is_in_view pos dir e.pos s.view_angle ∧
            vdist pos e.pos < s.cohesion_radius)).map
        fun e => (e.pos, e.vel) := by
  induction snap with
  | nil => rfl
  | cons e rest ih =>
    simp only [buildNeighbors]
    by_cases hid : e.id = myId
    · simp [hid, List.filter_cons, ih]
    · by_cases hview : is_in_view pos dir e.pos s.view_angle
      · by_cases hd : vdist pos e.pos < s.cohesion_radius
        · simp [hid, hview, hd, List.filter_cons, ih]
        · simp [hid, hview, hd, List.filter_cons, ih]
      · simp [hid, hview, List.filter_cons, ih]

/-- Claim C5: each bucket of the neighbor classification holds exactly the
snapshot entries that are not the agent itself, lie inside the view cone,
and are strictly closer than that bucket's radius; the three radius tests
are independent of each other. -/
theorem C5_bucket_characterization (s : BoidSettings) (myId : ℕ) (pos dir : Vec2)
    (snap : List SnapEntry) :
    (buildNeighbors s myId pos dir snap).separation =
      ((snap.filter fun e =>
          decide (e.id ≠ myId ∧ is_in_view pos dir e.pos s.view_angle ∧
            vdist pos e.pos < s.separation_radius)).map
        fun e => (e.pos, e.vel)) ∧
    (buildNeighbors s myId pos dir snap).alignment =
      ((snap.filter fun e =>
          decide (e.id ≠ myId ∧ is_in_view pos dir e.pos s.view_angle ∧
            vdist pos e.pos < s.alignment_radius)).map
        fun e => (e.pos, e.vel)) ∧
    (buildNeighbors s myId pos dir snap).cohesion =
      ((snap.filter fun e =>
          decide (e.id ≠ myId ∧ is_in_view pos dir e.pos s.view_angle ∧
            vdist pos e.pos < s.cohesion_radius)).map
        fun e => (e.pos, e.vel)) :=
  ⟨buildNeighbors_sep_eq s myId pos dir snap, buildNeighbors_align_eq s myId pos dir snap,
    buildNeighbors_coh_eq s myId pos dir snap⟩

lemma filter_map_subset_of_imp {α β : Type} (l : List α) (p q : α → Bool) (f : α → β)
    (h : ∀ a, p a = true → q a = true) : (l.filter p).map f ⊆ (l.filter q).map f := by
  intro x hx
  simp only [List.mem_map, List.mem_filter] at hx ⊢
  obtain ⟨a, ⟨ha, hpa⟩, hfa⟩ := hx
  exact ⟨a, ⟨ha, h a hpa⟩, hfa⟩

/-- Claim C10: bucketing is monotone in the radius.  Growing the
separation radius (all other settings fixed) only grows the separation
bucket, and when the three radii are ordered the separation bucket is
contained in the alignment bucket, which is contained in the cohesion
bucket. -/
theorem C10_bucket_monotone_in_radius (s : BoidSettings) (myId : ℕ) (pos dir : Vec2)
    (snap : List SnapEntry) (r1 r2 : ℝ) (h12 : r1 ≤ r2)
    (hsa : s.separation_radius ≤ s.alignment_radius)
    (hac : s.alignment_radius ≤ s.cohesion_radius) :
    ((buildNeighbors { s with separation_radius := r1 } myId pos dir snap).separation ⊆
      (buildNeighbors { s with separation_radius := r2 } myId pos dir snap).separation) ∧
    ((buildNeighbors s myId pos dir snap).separation ⊆
      (buildNeighbors s myId pos dir snap).alignment) ∧
    ((buildNeighbors s myId pos dir snap).alignment ⊆
      (buildNeighbors s myId pos dir snap).cohesion) := by
  refine ⟨?_, ?_, ?_⟩
  · rw [buildNeighbors_sep_eq, buildNeighbors_sep_eq]
    refine filter_map_subset_of_imp _ _ _ _ fun e he => ?_
    simp only [decide_eq_true_eq] at he ⊢
    exact ⟨he.1, he.2.1, lt_of_lt_of_le he.2.2 h12⟩
  · rw [buildNeighbors_sep_eq, buildNeighbors_align_eq]
    refine filter_map_subset_of_imp _ _ _ _ fun e he => ?_
    simp only [decide_eq_true_eq] at he ⊢
    exact ⟨he.1, he.2.1, lt_of_lt_of_le he.2.2 hsa⟩
  · rw [buildNeighbors_align_eq, buildNeighbors_coh_eq]
    refine filter_map_subset_of_imp _ _ _ _ fun e he => ?_
    simp only [decide_eq_true_eq] at he ⊢
    exact ⟨he.1, he.2.1, lt_of_lt_of_le he.2.2 hac⟩

/-- Witness for C10 at concrete radii 20 ≤ 80 and the default settings
(radii 20 ≤ 80 ≤ 120). -/
theorem C10_bucket_monotone_witness :
    ((buildNeighbors { defaultBoidSettings with separation_radius := 20 } 0 0 0
        [entB]).separation ⊆
      (buildNeighbors { defaultBoidSettings with separation_radius := 80 } 0 0 0
        [entB]).separation) ∧
    ((buildNeighbors defaultBoidSettings 0 0 0 [entB]).separation ⊆
      (buildNeighbors defaultBoidSettings 0 0 0 [entB]).alignment) ∧
    ((buildNeighbors defaultBoidSettings 0 0 0 [entB]).alignment ⊆
      (buildNeighbors defaultBoidSettings 0 0 0 [entB]).cohesion) :=
  C10_bucket_monotone_in_radius defaultBoidSettings 0 0 0 [entB] 20 80 (by norm_num)
    (by norm_num [defaultBoidSettings]) (by norm_num [defaultBoidSettings])

/-! The sequential in-place loop is the snapshot map. -/

lemma getElem_append_cons_self {α : Type} (done : List α) (b : α) (rest : List α)
    (h : done.length < (done ++ b :: rest).length) : (done ++ b :: rest)[done.length] = b := by
  induction done with
  | nil => rfl
  | cons d ds ih =>
    simpa using ih (by simp)

lemma set_append_cons_self {α : Type} (done : List α) (b c : α) (rest : List α) :
    (done ++ b :: rest).set done.length c = done ++ c :: rest := by
  induction done with
  | nil => rfl
  | cons d ds ih =>
    simp [List.set, ih]

lemma seqUpdateFrom_spec (ctx : TickCtx) (snap : List SnapEntry) :
    ∀ (todo done : List BoidState),
      seqUpdateFrom ctx snap done.length (done ++ todo) =
        done ++ todo.map (stepBoid ctx snap) := by
  intro todo
  induction todo with
  | nil =>
    intro done
    rw [seqUpdateFrom]
    simp
  | cons b rest ih =>
    intro done
    rw [seqUpdateFrom]
    have hlt : done.length < (done ++ b :: rest).length := by simp
    rw [dif_pos hlt, getElem_append_cons_self done b rest hlt, set_append_cons_self]
    have h1 : done.length + 1 = (done ++ [stepBoid ctx snap b]).length := by simp
    have h2 : done ++ stepBoid ctx snap b :: rest = (done ++ [stepBoid ctx snap b]) ++ rest := by
      simp
    rw [h1, h2, ih (done ++ [stepBoid ctx snap b])]
    simp

lemma boid_movement_system_eq_map (ctx : TickCtx) (boids : List BoidState) :
    boid_movement_system ctx boids = boids.map (stepBoid ctx (snapshotOf boids)) := by
  unfold boid_movement_system
  have h := seqUpdateFrom_spec ctx (snapshotOf boids) boids []
  simpa using h

/-! Permutation invariance of the per-agent force computation. -/

lemma foldl_sep_eq_sum (p : Vec2) (l : List (Vec2 × Vec2)) (acc : Vec2) :
    l.foldl
        (fun acc nb =>
          if 0 < vlength (p - nb.1) then
            acc + (1 / vlength (p - nb.1)) • vnormalize (p - nb.1)
          else acc)
        acc =
      acc +
        (l.map fun nb =>
            if 0 < vlength (p - nb.1) then (1 / vlength (p - nb.1)) • vnormalize (p - nb.1)
            else 0).sum := by
  induction l generalizing acc with
  | nil => simp
  | cons nb rest ih =>
    simp only [List.foldl_cons, List.map_cons, List.sum_cons]
    by_cases h : 0 < vlength (p - nb.1)
    · rw [if_pos h, if_pos h, ih, add_assoc]
    · rw [if_neg h, if_neg h, ih, zero_add]

lemma perm_empty_iff {α : Type} {l1 l2 : List α} (h : l1.Perm l2) :
    l1.isEmpty = l2.isEmpty := by
  cases l1 with
  | nil => simp [h.nil_eq.symm]
  | cons a t =>
    cases l2 with
    | nil => exact absurd h.symm (by simp [List.Perm.nil_eq, List.cons_ne_nil])
    | cons b t2 => rfl

lemma calculate_separation_perm (p : Vec2) {l1 l2 : List (Vec2 × Vec2)} (h : l1.Perm l2) :
    calculate_separation p l1 = calculate_separation p l2 := by
  unfold calculate_separation
  rw [perm_empty_iff h]
  by_cases he : l2.isEmpty
  · simp [he]
  · simp only [he, if_false]
    rw [foldl_sep_eq_sum, foldl_sep_eq_sum, (h.map _).sum_eq]

lemma calculate_alignment_perm (v : Vec2) {l1 l2 : List (Vec2 × Vec2)} (h : l1.Perm l2) :
    calculate_alignment v l1 = calculate_alignment v l2 := by
  unfold calculate_alignment
  rw [perm_empty_iff h, h.length_eq, (h.map Prod.snd).sum_eq]

lemma calculate_cohesion_perm (p : Vec2) {l1 l2 : List (Vec2 × Vec2)} (h : l1.Perm l2) :
    calculate_cohesion p l1 = calculate_cohesion p l2 := by
  unfold calculate_cohesion
  rw [perm_empty_iff h, h.length_eq, (h.map Prod.fst).sum_eq]

lemma buildNeighbors_perm (s : BoidSettings) (myId : ℕ) (pos dir : Vec2)
    {snap1 snap2 : List SnapEntry} (h : snap1.Perm snap2) :
    (buildNeighbors s myId pos dir snap1).separation.Perm
        (buildNeighbors s myId pos dir snap2).separation ∧
      (buildNeighbors s myId pos dir snap1).alignment.Perm
        (buildNeighbors s myId pos dir snap2).alignment ∧
      (buildNeighbors s myId pos dir snap1).cohesion.Perm
        (buildNeighbors s myId pos dir snap2).cohesion := by
  rw [buildNeighbors_sep_eq, buildNeighbors_sep_eq, buildNeighbors_align_eq,
    buildNeighbors_align_eq, buildNeighbors_coh_eq, buildNeighbors_coh_eq]
  exact ⟨(h.filter _).map _, (h.filter _).map _, (h.filter _).map _⟩

lemma steeringForce_perm (ctx : TickCtx) {snap1 snap2 : List SnapEntry} (b : BoidState)
    (h : snap1.Perm snap2) : steeringForce ctx snap1 b = steeringForce ctx snap2 b := by
  simp only [steeringForce]
  obtain ⟨hs, ha, hc⟩ := buildNeighbors_perm ctx.settings b.id b.pos (vnormalizeOrZero b.vel) h
  rw [calculate_separation_perm b.pos hs, calculate_alignment_perm b.vel ha,
    calculate_cohesion_perm b.pos hc]

lemma stepBoid_perm (ctx : TickCtx) {snap1 snap2 : List SnapEntry} (b : BoidState)
    (h : snap1.Perm snap2) : stepBoid ctx snap1 b = stepBoid ctx snap2 b := by
  unfold stepBoid newVelocity
  rw [steeringForce_perm ctx b h]

/-- Claim C3: the in-place update loop of `boid_movement_system` reads
neighbor data only from the start-of-tick snapshot, so it produces exactly
the two-phase snapshot-then-write result, each agent's new state depends
on the snapshot only up to permutation, and permuting the processing order
permutes (and otherwise does not change) the per-agent results. -/
theorem C3_snapshot_equivalence :
    (∀ (ctx : TickCtx) (boids : List BoidState),
      boid_movement_system ctx boids = twoPhaseUpdate ctx boids) ∧
    (∀ (ctx : TickCtx) (snap1 snap2 : List SnapEntry) (b : BoidState), snap1.Perm snap2 →
      stepBoid ctx snap1 b = stepBoid ctx snap2 b) ∧
    (∀ (ctx : TickCtx) (boids1 boids2 : List BoidState), boids1.Perm boids2 →
      (boid_movement_system ctx boids1).Perm (boid_movement_system ctx boids2)) := by
  refine ⟨fun ctx boids => ?_, fun ctx snap1 snap2 b h => stepBoid_perm ctx b h,
    fun ctx boids1 boids2 h => ?_⟩
  · rw [boid_movement_system_eq_map]
    rfl
  · rw [boid_movement_system_eq_map, boid_movement_system_eq_map]
    have hsnap : (snapshotOf boids1).Perm (snapshotOf boids2) := h.map _
    have hfun : stepBoid ctx (snapshotOf boids1) = stepBoid ctx (snapshotOf boids2) :=
      funext fun b => stepBoid_perm ctx b hsnap
    rw [hfun]
    exact h.map _

/-- Witness for C3 at concrete inputs: a two-entry snapshot given in both
orders yields the same stepped state, and processing a two-boid population
in either order yields a permutation of the same results. -/
theorem C3_snapshot_equivalence_witness :
    stepBoid ctx0 [entA, entB] boidZ = stepBoid ctx0 [entB, entA] boidZ ∧
    (boid_movement_system ctx0 [boid0, boidY]).Perm (boid_movement_system ctx0 [boidY, boid0]) :=
  ⟨C3_snapshot_equivalence.2.1 ctx0 [entA, entB] [entB, entA] boidZ (List.Perm.swap entB entA []),
    C3_snapshot_equivalence.2.2 ctx0 [boid0, boidY] [boidY, boid0] (List.Perm.swap boidY boid0 [])⟩

/-! Concrete evaluation of one tick for the single boid `boid0`. -/

lemma steeringForce_boid0 : steeringForce ctx0 (snapshotOf [boid0]) boid0 = 0 := by
  simp [steeringForce, mouseSeekForce, ctx0, boid0, snapshotOf, buildNeighbors,
    calculate_separation, calculate_alignment, calculate_cohesion]

lemma newVelocity_boid0 : newVelocity ctx0 (snapshotOf [boid0]) boid0 = ((0 : ℝ), (100 : ℝ)) := by
  unfold newVelocity
  rw [steeringForce_boid0, clampLengthMax_zero]
  have harg : boid0.vel + ctx0.dt • ((1 / boid0.mass) • (0 : Vec2)) = ((0 : ℝ), (100 : ℝ)) := by
    simp [boid0, ctx0]
  rw [harg]
  unfold clampLengthMax
  rw [if_neg (by norm_num [vlengthSq, boid0])]

lemma stepBoid_boid0_pos : (stepBoid ctx0 (snapshotOf [boid0]) boid0).pos = ((330 : ℝ), (100 : ℝ)) := by
  rw [stepBoid_pos, newVelocity_boid0]
  norm_num [boid0, ctx0, Prod.ext_iff]

/-- Counterexample to claim C1 as stated: for the default-parameter boid
`boid0` (max_speed 100) near the right edge, the full tick — movement
update followed by the border-repulsion step — ends with speed
`sqrt(24400) > 100`, because the border step adds its impulse after the
`max_speed` clamp without re-clamping. -/
theorem C1_counterexample :
    (simulationTick ctx0 gs0 [boid0]).map BoidState.vel = [((-120 : ℝ), (100 : ℝ))] ∧
    boid0.max_speed < vlength ((-120 : ℝ), (100 : ℝ)) := by
  constructor
  · unfold simulationTick border_repulsion_system
    rw [boid_movement_system_eq_map]
    have hp := stepBoid_boid0_pos
    have hv : (stepBoid ctx0 (snapshotOf [boid0]) boid0).vel = ((0 : ℝ), (100 : ℝ)) := by
      rw [stepBoid_vel, newVelocity_boid0]
    simp only [List.map_cons, List.map_nil, List.cons.injEq, and_true]
    unfold border_repulsion_step
    simp only [hp, hv]
    norm_num [gs0, ctx0, border_distance, repulsion_strength, Prod.ext_iff]
  · have h100 : boid0.max_speed = (100 : ℝ) := rfl
    rw [h100]
    unfold vlength vlengthSq
    rw [show ((-120 : ℝ), (100 : ℝ)).1 * ((-120 : ℝ), (100 : ℝ)).1 +
        ((-120 : ℝ), (100 : ℝ)).2 * ((-120 : ℝ), (100 : ℝ)).2 = (24400 : ℝ) by norm_num]
    rw [show (100 : ℝ) = Real.sqrt (100 ^ 2) from (Real.sqrt_sq (by norm_num)).symm]
    apply Real.sqrt_lt_sqrt (by positivity)
    norm_num

/-- Claim C1 (amended): the `|velocity| <= max_speed` bound holds at the
end of the movement update of every tick (for any nonnegative
`max_speed`); the subsequent border-repulsion step adds its impulse
without re-clamping, so the bound need not hold at the end of the full
tick (see the counterexample). -/
theorem C1_speed_clamped_after_movement (ctx : TickCtx) (snap : List SnapEntry)
    (b : BoidState) (h : 0 ≤ b.max_speed) :
    vlength (stepBoid ctx snap b).vel ≤ b.max_speed := by
  rw [stepBoid_vel]
  exact vlength_clampLengthMax_le _ _ h

/-- Witness for the amended C1 at a concrete input. -/
theorem C1_speed_clamped_witness :
    (0 : ℝ) ≤ boid0.max_speed ∧
      vlength (stepBoid ctx0 (snapshotOf [boid0]) boid0).vel ≤ boid0.max_speed :=
  ⟨by norm_num [boid0],
    C1_speed_clamped_after_movement ctx0 (snapshotOf [boid0]) boid0 (by norm_num [boid0])⟩

/-! Claim C2: the acos argument of the visibility test. -/

lemma abs_vdot_le (a b : Vec2) : |vdot a b| ≤ vlength a * vlength b := by
  have h1 : vdot a b ^ 2 ≤ vlengthSq a * vlengthSq b := by
    unfold vdot vlengthSq
    nlinarith [sq_nonneg (a.1 * b.2 - a.2 * b.1)]
  have h2 : |vdot a b| = Real.sqrt (vdot a b ^ 2) := (Real.sqrt_sq_eq_abs _).symm
  rw [h2, vlength, vlength, ← Real.sqrt_mul (vlengthSq_nonneg a)]
  exact Real.sqrt_le_sqrt h1

/-- Claim C2 (supporting theorem for the exact-real model): the quantity
that `boid_movement_system` feeds to `acos` inside `is_in_view` — the dot
product of `normalize_or_zero(velocity)` with
`normalize_or_zero(other_pos - boid_pos)` — already lies in `[-1, 1]` in
exact arithmetic, with no clamping.  The code itself (src/main.rs line 71)
performs no clamp, so the claim's guard exists only to protect against
floating-point drift and is absent from the code. -/
theorem C2_acos_argument_in_unit_interval (boid_pos other_pos vel : Vec2) :
    -1 ≤ vdot (vnormalizeOrZero vel) (vnormalizeOrZero (other_pos - boid_pos)) ∧
      vdot (vnormalizeOrZero vel) (vnormalizeOrZero (other_pos - boid_pos)) ≤ 1 := by
  have h := abs_vdot_le (vnormalizeOrZero vel) (vnormalizeOrZero (other_pos - boid_pos))
  have h1 := vlength_normalizeOrZero_le_one vel
  have h2 := vlength_normalizeOrZero_le_one (other_pos - boid_pos)
  have h3 : |vdot (vnormalizeOrZero vel) (vnormalizeOrZero (other_pos - boid_pos))| ≤ 1 := by
    refine le_trans h ?_
    have ha := vlength_nonneg (vnormalizeOrZero vel)
    have hb := vlength_nonneg (vnormalizeOrZero (other_pos - boid_pos))
    nlinarith
  exact abs_le.mp h3
